import Mathlib

/-!
Shallow embedding of the whisper.cpp example server
(examples/server/server.cpp): the request-processing pipeline between the
HTTP layer and the shared whisper_context.  C++ int32_t fields are modelled
as Int (no arithmetic near overflow occurs in the modelled code), float
fields as rationals, std::string as String or List Char.  The inference
engine itself (whisper_full_parallel, whisper_lang_id,
whisper_init_from_file, whisper_is_multilingual) lives outside the
repository slice and is abstracted as explicit function parameters.
-/

namespace WhisperServer

/-- whisper_params (server.cpp lines 35-81), restricted to the fields the
request-processing pipeline reads.  Defaults mirror the in-class
initializers of the source; n_threads is min(4, hardware threads) in the
source and is modelled by its cap 4. -/
structure WhisperParams where
  n_threads : Int := 4
  n_processors : Int := 1
  offset_t_ms : Int := 0
  duration_ms : Int := 0
  max_context : Int := -1
  max_len : Int := 0
  best_of : Int := 2
  beam_size : Int := -1
  word_thold : ℚ := 1/100
  entropy_thold : ℚ := 12/5
  logprob_thold : ℚ := -1
  speed_up : Bool := false
  translate : Bool := false
  detect_language : Bool := false
  diarize : Bool := false
  tinydiarize : Bool := false
  split_on_word : Bool := false
  no_fallback : Bool := false
  output_wts : Bool := false
  print_special : Bool := false
  print_progress : Bool := false
  no_timestamps : Bool := false
  language : String := "en"
  prompt : String := ""
  deriving Repr, DecidableEq

/-- Sampling strategy selector of whisper_full_params. -/
inductive SamplingStrategy where
  | greedy
  | beamSearch
  deriving Repr, DecidableEq, Inhabited

/-- The subset of whisper_full_params that ProcessAudio assigns
(server.cpp lines 511-543).  The remaining engine defaults are irrelevant
to the modelled pipeline. -/
structure WhisperFullParams where
  strategy : SamplingStrategy := .greedy
  print_realtime : Bool := false
  print_progress : Bool := false
  print_timestamps : Bool := true
  print_special : Bool := false
  translate : Bool := false
  language : String := "en"
  detect_language : Bool := false
  n_threads : Int := 4
  n_max_text_ctx : Int := 16384
  offset_ms : Int := 0
  duration_ms : Int := 0
  token_timestamps : Bool := false
  thold_pt : ℚ := 1/100
  max_len : Int := 0
  split_on_word : Bool := false
  speed_up : Bool := false
  tdrz_enable : Bool := false
  initial_prompt : String := ""
  greedy_best_of : Int := 5
  beam_search_beam_size : Int := -1
  temperature_inc : ℚ := 2/10
  entropy_thold : ℚ := 12/5
  logprob_thold : ℚ := -1
  deriving Repr, DecidableEq, Inhabited

/-- The parameter adjustment ProcessAudio performs before building the
engine parameters (server.cpp lines 490-499): on a non-multilingual model
a language other than en, or a translate request, is overridden to
en / no-translate; afterwards detect_language forces language to auto.
The Bool argument is the value of whisper_is_multilingual(ctx). -/
def adjustParams (ml : Bool) (p : WhisperParams) : WhisperParams :=
  let q :=
    if ml = false then
      if p.language ≠ "en" ∨ p.translate = true then
        { p with language := "en", translate := false }
      else p
    else p
  if q.detect_language = true then { q with language := "auto" } else q

/-- Construction of whisper_full_params from the (already adjusted)
whisper_params, field by field as in server.cpp lines 511-543.  The
`d` argument stands for whisper_full_default_params(WHISPER_SAMPLING_GREEDY),
an engine-side value: only the fields the source keeps from it matter. -/
def buildFullParams (d : WhisperFullParams) (p : WhisperParams) : WhisperFullParams :=
  { strategy := if 1 < p.beam_size then .beamSearch else .greedy
    print_realtime := false
    print_progress := p.print_progress
    print_timestamps := !p.no_timestamps
    print_special := p.print_special
    translate := p.translate
    language := p.language
    detect_language := p.detect_language
    n_threads := p.n_threads
    n_max_text_ctx := if 0 ≤ p.max_context then p.max_context else d.n_max_text_ctx
    offset_ms := p.offset_t_ms
    duration_ms := p.duration_ms
    token_timestamps := p.output_wts || decide (0 < p.max_len)
    thold_pt := p.word_thold
    max_len := if p.output_wts = true ∧ p.max_len = 0 then 60 else p.max_len
    split_on_word := p.split_on_word
    speed_up := p.speed_up
    tdrz_enable := p.tinydiarize
    initial_prompt := p.prompt
    greedy_best_of := p.best_of
    beam_search_beam_size := p.beam_size
    temperature_inc := if p.no_fallback = true then 0 else d.temperature_inc
    entropy_thold := p.entropy_thold
    logprob_thold := p.logprob_thold }

/-- Modelled from the spec: the uploaded container as seen by the audio
decoder.  The decoding function read_wav lives in examples/common.cpp,
which is not part of the repository slice; wellFormed abstracts a parseable,
supported, non-truncated waveform container and samples its decoded mono
F32 PCM content (floats modelled as rationals). -/
structure RawAudio where
  wellFormed : Bool
  samples : List ℚ
  deriving Repr, DecidableEq

/-- Modelled from the spec: read_wav (called at server.cpp line 478) per
section 4.2 of the spec fails on a malformed header, unsupported channel
layout or truncated stream, and never silently accepts an empty or
degenerate buffer as a no-op success; on success it yields the non-empty
mono sample sequence. -/
def read_wav (a : RawAudio) : Option (List ℚ) :=
  if a.wellFormed = true ∧ a.samples ≠ [] then some a.samples else none

/-- Outcome of whisper_full_parallel together with the segment texts the
engine leaves in the context (read back by whisper_full_n_segments and
whisper_full_get_segment_text, server.cpp lines 558-567). -/
structure EngineResult where
  status : Int
  segments : List String
  deriving Repr, DecidableEq

/-- An abstract engine invocation: whisper_full_parallel applied to the
built parameters, the PCM buffer and the processor count.  The engine is
outside the repository slice, so it is a parameter of the pipeline. -/
def Engine : Type := WhisperFullParams → List ℚ → Int → EngineResult

/-- ProcessAudio (server.cpp lines 474-569): decode the upload, adjust the
per-job copy of the parameters, build the engine parameters, run the
engine, and on status 0 concatenate the segment texts in order.  The
params are received by value in the source; here the per-job adjustment is
a local rebinding that leaves the caller's value untouched. -/
def ProcessAudio (e : Engine) (d : WhisperFullParams) (ml : Bool)
    (p : WhisperParams) (a : RawAudio) : Option String :=
  match read_wav a with
  | none => none
  | some pcmf32 =>
    let q := adjustParams ml p
    let w := buildFullParams d q
    let r := e w pcmf32 q.n_processors
    if r.status ≠ 0 then none
    else some (String.join r.segments)

/-- The PCM buffers ProcessAudio hands to whisper_full_parallel for one
upload: none when decoding fails, otherwise exactly the decoded buffer
(server.cpp lines 478-481 and 558). -/
def submittedBuffers (a : RawAudio) : List (List ℚ) :=
  match read_wav a with
  | none => []
  | some pcmf32 => [pcmf32]

/-- EscapeDoubleQuotesAndBackslashes (server.cpp lines 573-590) on the
character sequence of the string: the source sizes the output in a first
pass and fills it in a second; both passes visit the characters left to
right and the filled string is exactly one backslash prepended before each
double quote or backslash, which this single structural pass produces. -/
def EscapeDoubleQuotesAndBackslashes : List Char → List Char
  | [] => []
  | c :: rest =>
    if c = '"' ∨ c = '\\' then '\\' :: c :: EscapeDoubleQuotesAndBackslashes rest
    else c :: EscapeDoubleQuotesAndBackslashes rest

/-- Standard unescaping as the round-trip claim words it: drop one
backslash before each escaped double quote or backslash, leaving every
other character in place.  This definition follows the claim text and is
the comparison point for the round-trip law, not source code. -/
def unescapeQuoteBackslash : List Char → List Char
  | [] => []
  | [c] => [c]
  | a :: b :: rest =>
    if a = '\\' ∧ (b = '"' ∨ b = '\\') then b :: unescapeQuoteBackslash rest
    else a :: unescapeQuoteBackslash (b :: rest)
termination_by l => l.length

/-- A printable character in the claim about the escaping round trip. -/
def printableChar (c : Char) : Prop := 32 ≤ c.toNat ∧ c.toNat ≤ 126

instance (c : Char) : Decidable (printableChar c) := by
  unfold printableChar
  infer_instance

/-- Failure modes of InitializeWhisper (server.cpp lines 446-467), one per
distinct error message of the source. -/
inductive InitError where
  | unknownLanguage
  | conflictingDiarization
  | whisperInitFailed
  deriving Repr, DecidableEq

/-- Which InitializeWhisper failures are configuration errors in the sense
of the taxonomy (section 7 of the spec): the two validation failures, as
opposed to the model-load failure. -/
def InitError.isConfigError : InitError → Bool
  | .unknownLanguage => true
  | .conflictingDiarization => true
  | .whisperInitFailed => false

/-- InitializeWhisper (server.cpp lines 446-467).  lang_id abstracts
whisper_lang_id (engine table lookup, -1 for an unknown code) and
initOk whether whisper_init_from_file succeeds; the Nat counts the engine
invocations performed (whisper_init_from_file and the subsequent OpenVINO
initialization on the loaded context), which the source reaches only after
both validation checks pass. -/
def InitializeWhisper (lang_id : String → Int) (initOk : Bool)
    (p : WhisperParams) : Except InitError Unit × Nat :=
  if p.language ≠ "auto" ∧ lang_id p.language = -1 then
    (.error .unknownLanguage, 0)
  else if p.diarize = true ∧ p.tinydiarize = true then
    (.error .conflictingDiarization, 0)
  else if initOk then (.ok (), 1)
  else (.error .whisperInitFailed, 1)

/-- One POST /speech_to_text request as the handler sees it: whether the
multipart body carries the speech field, and that field's content
(server.cpp lines 645-656). -/
structure Request where
  hasSpeechFile : Bool
  speech : RawAudio
  deriving Repr, DecidableEq

/-- The three response bodies the handler writes (server.cpp lines
648-662): the plain-text complaint about the missing multipart field, the
JSON body with result 1 carrying the escaped transcript, and the JSON body
with result 0. -/
inductive HandlerResponse where
  | missingSpeechField
  | transcriptOk (escapedText : List Char)
  | processingFailed
  deriving Repr, DecidableEq

/-- Process-wide state the handler lambda captures by reference: the
loaded context (represented by its multilingual capability, the only
property the pipeline reads) and the startup-time whisper_params
(server.cpp lines 602-607 and 645-663). -/
structure ServerState where
  isMultilingual : Bool
  wparams : WhisperParams
  deriving Repr, DecidableEq

/-- The POST /speech_to_text handler (server.cpp lines 645-663): reject a
body without the speech field outright, otherwise run ProcessAudio on a
copy of the captured params and encode the outcome.  Returns the response,
the number of engine invocations made for this request, and the process
state afterwards; the source never assigns to the captured state, so the
state comes back unchanged. -/
def speechToTextHandler (e : Engine) (d : WhisperFullParams)
    (s : ServerState) (req : Request) : HandlerResponse × Nat × ServerState :=
  if req.hasSpeechFile = false then (.missingSpeechField, 0, s)
  else
    let n := (submittedBuffers req.speech).length
    match ProcessAudio e d s.isMultilingual s.wparams req.speech with
    | some t => (.transcriptOk (EscapeDoubleQuotesAndBackslashes t.toList), n, s)
    | none => (.processingFailed, n, s)

/-- Sequential handling of a list of requests, threading the process state
through: what the server computes on any serialization of the incoming
requests. -/
def handleAll (e : Engine) (d : WhisperFullParams) :
    ServerState → List Request → List (HandlerResponse × Nat) × ServerState
  | s, [] => ([], s)
  | s, r :: rs =>
    let out := speechToTextHandler e d s r
    let rest := handleAll e d out.2.2 rs
    ((out.1, out.2.1) :: rest.1, rest.2)

/-- Phase of one connection thread executing the POST /speech_to_text
handler: before the ProcessAudio call, inside it, or finished. -/
inductive ThreadPhase where
  | idle
  | running
  | done
  deriving Repr, DecidableEq

/-- Joint phase of two overlapping POST /speech_to_text connection
threads against the one shared whisper_context. -/
abbrev GateState := ThreadPhase × ThreadPhase

/-- Interleaving semantics of the code for two overlapping requests: the
handler (server.cpp line 657) calls ProcessAudio on the shared context
directly, and server.cpp contains no mutex, queue or other gate around the
call, so either thread may enter the running phase regardless of the other
thread's phase. -/
inductive handlerStep : GateState → GateState → Prop
  | startLeft (b : ThreadPhase) : handlerStep (.idle, b) (.running, b)
  | startRight (a : ThreadPhase) : handlerStep (a, .idle) (a, .running)
  | finishLeft (b : ThreadPhase) : handlerStep (.running, b) (.done, b)
  | finishRight (a : ThreadPhase) : handlerStep (a, .running) (a, .done)

/-- Number of jobs actively executing against the shared handle. -/
def activeJobs (s : GateState) : Nat :=
  (if s.1 = .running then 1 else 0) + (if s.2 = .running then 1 else 0)

/-- Address of the cancellation flag installed for a job: ProcessAudio
(server.cpp lines 548-556) declares one function-local static bool
is_aborted — a single object for the whole process — and stores its
address into encoder_begin_callback_user_data on every call, so the
address does not depend on the job. -/
def is_aborted_addr : Nat := 0

/-- The user_data pointer ProcessAudio installs for job number j. -/
def encoder_begin_callback_user_data (_j : Nat) : Nat := is_aborted_addr

/-- The encoder-begin callback (server.cpp lines 551-554): read the bool
at the user_data address in the given memory and continue only when it is
not set. -/
def encoder_begin_callback (mem : Nat → Bool) (u : Nat) : Bool := !(mem u)

/-! Helper lemmas. -/

/-- A successful decode returns exactly the non-empty sample sequence of a
well-formed container. -/
lemma read_wav_some {a : RawAudio} {pcm : List ℚ} (h : read_wav a = some pcm) :
    a.wellFormed = true ∧ pcm = a.samples ∧ pcm ≠ [] := by
  unfold read_wav at h
  by_cases hw : a.wellFormed = true ∧ a.samples ≠ []
  · rw [if_pos hw] at h
    cases h
    exact ⟨hw.1, rfl, hw.2⟩
  · rw [if_neg hw] at h
    cases h

/-- The handler never writes the captured process state back changed. -/
lemma speechToTextHandler_state (e : Engine) (d : WhisperFullParams)
    (s : ServerState) (r : Request) : (speechToTextHandler e d s r).2.2 = s := by
  by_cases h : r.hasSpeechFile = false
  · simp [speechToTextHandler, h]
  · simp only [speechToTextHandler, if_neg h]
    cases hp : ProcessAudio e d s.isMultilingual s.wparams r.speech <;> simp [hp]

/-- Unescaping leaves a leading character other than a backslash alone. -/
lemma unescape_cons_of_ne {c : Char} (hc : c ≠ '\\') (l : List Char) :
    unescapeQuoteBackslash (c :: l) = c :: unescapeQuoteBackslash l := by
  cases l with
  | nil => simp [unescapeQuoteBackslash]
  | cons b rest =>
    simp only [unescapeQuoteBackslash]
    rw [if_neg (fun h => hc h.1)]

/-! Claim theorems. -/

/-- C1: the claim says that for two overlapping POST /speech_to_text
requests at most one job is ever active against the shared handle, queued
FIFO.  The code has no gate — the handler calls ProcessAudio directly and
server.cpp holds no lock — so a state with two simultaneously active jobs
is reachable in the interleaving semantics of the code, refuting the
single-flight invariant the code was meant to keep. -/
theorem two_jobs_active_is_reachable :
    ∃ s : GateState,
      Relation.ReflTransGen handlerStep (ThreadPhase.idle, ThreadPhase.idle) s ∧
        activeJobs s = 2 := by
  refine ⟨(.running, .running), ?_, rfl⟩
  have h1 : handlerStep (ThreadPhase.idle, ThreadPhase.idle)
      (ThreadPhase.running, ThreadPhase.idle) := .startLeft _
  have h2 : handlerStep (ThreadPhase.running, ThreadPhase.idle)
      (ThreadPhase.running, ThreadPhase.running) := .startRight _
  exact Relation.ReflTransGen.tail (Relation.ReflTransGen.tail .refl h1) h2

/-- C2: the claim says the abort signal checked by the encoder-begin
callback is a per-job cancellation token, never one shared mutable flag.
In the code every job receives the address of the one function-local
static is_aborted, so any two jobs share the flag and their callbacks read
the same memory cell. -/
theorem cancellation_flag_shared_across_jobs :
    ∀ i j : Nat,
      encoder_begin_callback_user_data i = encoder_begin_callback_user_data j ∧
        ∀ mem : Nat → Bool,
          encoder_begin_callback mem (encoder_begin_callback_user_data i) =
            encoder_begin_callback mem (encoder_begin_callback_user_data j) :=
  fun _ _ => ⟨rfl, fun _ => rfl⟩

/-- C3: an upload whose decoded waveform is empty is rejected by the
decoding step with an explicit error (never a silent empty-buffer
success), and every buffer actually submitted to the engine is
non-empty. -/
theorem decode_rejects_empty_no_empty_submitted (a : RawAudio) :
    (a.samples = [] → read_wav a = none) ∧
    (∀ b ∈ submittedBuffers a, b ≠ []) := by
  constructor
  · intro h
    simp [read_wav, h]
  · intro b hb
    cases hr : read_wav a with
    | none => simp [submittedBuffers, hr] at hb
    | some pcm =>
      simp [submittedBuffers, hr] at hb
      subst hb
      exact (read_wav_some hr).2.2

/-- C3 witness: the empty upload is rejected, and the concrete buffer
submitted for a one-sample upload is non-empty. -/
theorem decode_rejects_empty_no_empty_submitted_witness :
    read_wav ⟨true, []⟩ = none ∧ ([1] : List ℚ) ≠ [] :=
  ⟨(decode_rejects_empty_no_empty_submitted ⟨true, []⟩).1 rfl,
   (decode_rejects_empty_no_empty_submitted ⟨true, [1]⟩).2 [1]
     (by simp [submittedBuffers, read_wav])⟩

/-- C4: when the engine run for a job completes with a non-zero status,
ProcessAudio returns no transcript at all — the segments the engine may
have produced are never read on that path. -/
theorem nonzero_status_yields_no_transcript (e : Engine) (d : WhisperFullParams)
    (ml : Bool) (p : WhisperParams) (a : RawAudio) (pcm : List ℚ)
    (hdec : read_wav a = some pcm)
    (hst : (e (buildFullParams d (adjustParams ml p)) pcm
        (adjustParams ml p).n_processors).status ≠ 0) :
    ProcessAudio e d ml p a = none := by
  unfold ProcessAudio
  rw [hdec]
  simp [hst]

/-- C4 witness: an engine that fails with status 1 while still leaving a
segment behind yields no transcript for a concrete upload. -/
theorem nonzero_status_yields_no_transcript_witness :
    ProcessAudio (fun _ _ _ => ⟨1, ["partial"]⟩) {} false {} ⟨true, [1]⟩ = none :=
  nonzero_status_yields_no_transcript (fun _ _ _ => ⟨1, ["partial"]⟩) {} false {}
    ⟨true, [1]⟩ [1] (by simp [read_wav]) (by simp)

/-- C5: for a string of printable characters (quote and backslash
included), escaping and then dropping one backslash before each escaped
quote or backslash recovers the original string. -/
theorem escape_unescape_roundtrip (l : List Char) (h : ∀ c ∈ l, printableChar c) :
    unescapeQuoteBackslash (EscapeDoubleQuotesAndBackslashes l) = l := by
  clear h
  induction l with
  | nil => simp [EscapeDoubleQuotesAndBackslashes, unescapeQuoteBackslash]
  | cons c cs ih =>
    by_cases hc : c = '"' ∨ c = '\\'
    · have hu : unescapeQuoteBackslash
          ('\\' :: c :: EscapeDoubleQuotesAndBackslashes cs) =
          c :: unescapeQuoteBackslash (EscapeDoubleQuotesAndBackslashes cs) := by
        simp only [unescapeQuoteBackslash]
        rw [if_pos ⟨trivial, hc⟩]
      simp only [EscapeDoubleQuotesAndBackslashes, if_pos hc, hu, ih]
    · have hcb : c ≠ '\\' := fun hb => hc (Or.inr hb)
      simp only [EscapeDoubleQuotesAndBackslashes, if_neg hc,
        unescape_cons_of_ne hcb, ih]

/-- C5 witness: round trip on a concrete printable string holding a quote
and a backslash. -/
theorem escape_unescape_roundtrip_witness :
    unescapeQuoteBackslash
        (EscapeDoubleQuotesAndBackslashes ['a', '"', '\\', 'b']) =
      ['a', '"', '\\', 'b'] :=
  escape_unescape_roundtrip ['a', '"', '\\', 'b'] (by decide)

/-- C6: the derived fields of the engine parameters: max_len defaults to
60 when per-word output is requested and left at 0, token timestamps are
forced on by per-word output or a positive max_len, and disabling
fallback zeroes the temperature increment. -/
theorem derived_fields_resolution (d : WhisperFullParams) (p : WhisperParams) :
    (p.output_wts = true ∧ p.max_len = 0 → (buildFullParams d p).max_len = 60) ∧
    (p.output_wts = true ∨ 0 < p.max_len →
      (buildFullParams d p).token_timestamps = true) ∧
    (p.no_fallback = true → (buildFullParams d p).temperature_inc = 0) := by
  refine ⟨fun h => ?_, fun h => ?_, fun h => ?_⟩
  · simp [buildFullParams, h.1, h.2]
  · rcases h with h | h <;> simp [buildFullParams, h]
  · simp [buildFullParams, h]

/-- C6 witness: the three derived-field rules evaluated on a concrete
configuration requesting per-word output with max_len 0 and no
fallback. -/
theorem derived_fields_resolution_witness :
    (buildFullParams {} { output_wts := true, no_fallback := true }).max_len = 60 ∧
    (buildFullParams {} { output_wts := true, no_fallback := true }).token_timestamps = true ∧
    (buildFullParams {} { output_wts := true, no_fallback := true }).temperature_inc = 0 :=
  ⟨(derived_fields_resolution {} _).1 ⟨rfl, rfl⟩,
   (derived_fields_resolution {} _).2.1 (Or.inl rfl),
   (derived_fields_resolution {} _).2.2 rfl⟩

/-- C7: InitializeWhisper fails with a configuration error exactly when
the language is not auto and unknown to the engine, or diarize and
tinydiarize are both set; and on either failure no engine invocation has
been made. -/
theorem config_error_iff_validation (lang_id : String → Int) (initOk : Bool)
    (p : WhisperParams) :
    ((∃ err, (InitializeWhisper lang_id initOk p).1 = .error err ∧
        err.isConfigError = true) ↔
      ((p.language ≠ "auto" ∧ lang_id p.language = -1) ∨
        (p.diarize = true ∧ p.tinydiarize = true))) ∧
    (((p.language ≠ "auto" ∧ lang_id p.language = -1) ∨
        (p.diarize = true ∧ p.tinydiarize = true)) →
      (InitializeWhisper lang_id initOk p).2 = 0) := by
  unfold InitializeWhisper
  by_cases h1 : p.language ≠ "auto" ∧ lang_id p.language = -1
  · simp [h1, InitError.isConfigError]
  · by_cases h2 : p.diarize = true ∧ p.tinydiarize = true
    · simp [h1, h2, InitError.isConfigError]
    · by_cases h3 : initOk <;> simp [h1, h2, h3, InitError.isConfigError]

/-- C7 witness: a configuration with both diarization flags set fails
validation before any engine invocation, at a language table that knows
every code. -/
theorem config_error_iff_validation_witness :
    (InitializeWhisper (fun _ => 0) true
      { diarize := true, tinydiarize := true }).2 = 0 :=
  (config_error_iff_validation (fun _ => 0) true
    { diarize := true, tinydiarize := true }).2 (Or.inr ⟨rfl, rfl⟩)

/-- C8: a POST /speech_to_text request without the speech multipart field
gets the error response immediately and causes zero engine
invocations. -/
theorem missing_speech_field_rejected (e : Engine) (d : WhisperFullParams)
    (s : ServerState) (req : Request) (h : req.hasSpeechFile = false) :
    (speechToTextHandler e d s req).1 = .missingSpeechField ∧
    (speechToTextHandler e d s req).2.1 = 0 := by
  simp [speechToTextHandler, h]

/-- C8 witness: the rejection evaluated on a concrete request lacking the
speech field, against an engine that would succeed. -/
theorem missing_speech_field_rejected_witness :
    (speechToTextHandler (fun _ _ _ => ⟨0, []⟩) {} ⟨true, {}⟩
        ⟨false, ⟨true, [1]⟩⟩).1 = .missingSpeechField ∧
    (speechToTextHandler (fun _ _ _ => ⟨0, []⟩) {} ⟨true, {}⟩
        ⟨false, ⟨true, [1]⟩⟩).2.1 = 0 :=
  missing_speech_field_rejected (fun _ _ _ => ⟨0, []⟩) {} ⟨true, {}⟩
    ⟨false, ⟨true, [1]⟩⟩ rfl

/-- C9: handling requests never mutates the process-wide configuration:
after any sequence of requests the process state is the startup state, and
every request in the sequence is answered exactly as if handled against
the startup state. -/
theorem handler_preserves_config (e : Engine) (d : WhisperFullParams)
    (s : ServerState) (rs : List Request) :
    (handleAll e d s rs).2 = s ∧
    (handleAll e d s rs).1 = rs.map (fun r =>
      ((speechToTextHandler e d s r).1, (speechToTextHandler e d s r).2.1)) := by
  induction rs with
  | nil => exact ⟨rfl, rfl⟩
  | cons r rs ih =>
    simp only [handleAll, speechToTextHandler_state, List.map_cons]
    exact ⟨ih.1, by rw [ih.2]⟩

/-- C10: on a non-multilingual model a job asking for a language other
than en or for translation is executed with language en and translation
off instead of failing, except that detect_language makes the effective
language auto in every case. -/
theorem non_multilingual_language_override (d : WhisperFullParams) (ml : Bool)
    (p : WhisperParams) :
    ((ml = false ∧ (p.language ≠ "en" ∨ p.translate = true)) →
      (buildFullParams d (adjustParams ml p)).translate = false ∧
      (buildFullParams d (adjustParams ml p)).language =
        (if p.detect_language = true then "auto" else "en")) ∧
    (p.detect_language = true →
      (buildFullParams d (adjustParams ml p)).language = "auto") := by
  constructor
  · rintro ⟨hml, hlt⟩
    subst hml
    by_cases hd : p.detect_language = true <;>
      simp [adjustParams, buildFullParams, if_pos hlt, hd]
  · intro hd
    unfold adjustParams buildFullParams
    by_cases hml : ml = false
    · by_cases hlt : p.language ≠ "en" ∨ p.translate = true <;>
        simp [hml, hlt, hd]
    · simp [hml, hd]

/-- C10 witness: a French translate request against a non-multilingual
model runs with language en and no translation. -/
theorem non_multilingual_language_override_witness :
    (buildFullParams {} (adjustParams false { language := "fr", translate := true })).translate = false ∧
    (buildFullParams {} (adjustParams false { language := "fr", translate := true })).language = "en" :=
  (non_multilingual_language_override {} false
    { language := "fr", translate := true }).1 ⟨rfl, Or.inr rfl⟩

end WhisperServer
